import Mathlib

/-!
complete-gRPC: authentication service, authentication client, sample generator.

A shallow embedding of

* `code/lecture16.1/service/auth_server.go` (`AuthServer.Login`),
* `code/lecture18/client/auth_client.go` (`NewAuthClient`, `AuthClient.Login`),
* `code/lecture11.1/sample/generator.go` (`NewCPU` ... `NewLaptop`),

followed by the theorems that settle the claims C1 .. C10.

Go values are embedded as follows.  A pointer that may be nil is an `Option`.
A Go `(value, error)` result is a pair whose second component is an
`Option` (`none` is the nil error).  Collaborators reached through an
interface or through a package that is not part of the embedded sources are
parameters.  Every call the server makes on a collaborator is recorded, in
program order, in the `calls` field of its result.  The service behind the
client stub is stateful: each call on it reads and advances the state of
whatever lies behind the connection, and the client threads that state.
-/

/-! ## Go runtime and gRPC library values -/

/-- A non-nil Go `error` value, identified with the text its `Error()` method returns. -/
structure GoError where
  Error : String
deriving DecidableEq, Repr

namespace codes

/-- The status codes of `google.golang.org/grpc/codes`. -/
inductive Code where
  | OK | Canceled | Unknown | InvalidArgument | DeadlineExceeded | NotFound
  | AlreadyExists | PermissionDenied | ResourceExhausted | FailedPrecondition
  | Aborted | OutOfRange | Unimplemented | Internal | Unavailable | DataLoss
  | Unauthenticated
deriving DecidableEq, Repr

end codes

namespace fmt

/-- The formatting loop of `fmt.Sprintf`, restricted to the one verb the sources use:
each `%v` is replaced by the next operand (already rendered as text), every
other character is copied. -/
def sprintfAux : List Char → List String → List Char
  | '%' :: 'v' :: rest, a :: as => a.data ++ sprintfAux rest as
  | c :: rest, as => c :: sprintfAux rest as
  | [], _ => []

/-- The function `fmt.Sprintf` on a format and the `%v` renderings of its operands. -/
def Sprintf (format : String) (a : List String) : String :=
  String.mk (sprintfAux format.data a)

end fmt

namespace status

/-- The error built by `status.Errorf`: a status code and a message. -/
structure Status where
  Code : codes.Code
  Message : String
deriving DecidableEq, Repr

/-- The function `status.Errorf(c, format, a...)`: the status with code `c` and
message `fmt.Sprintf(format, a...)`. -/
def Errorf (c : codes.Code) (format : String) (a : List String) : Status :=
  ⟨c, fmt.Sprintf format a⟩

end status

/-! ## `pb`: the generated login messages

The packages `lecture16.1/pb` and `lecture18/pb` are generated from the same
message definitions; one rendering serves both. -/

namespace pb

/-- The message `pb.LoginRequest`. -/
structure LoginRequest where
  Username : String
  Password : String
deriving DecidableEq, Repr

/-- The message `pb.LoginResponse`. -/
structure LoginResponse where
  AccessToken : String
deriving DecidableEq, Repr

/-- The generated getter `GetUsername`, which is safe on a nil request. -/
def LoginRequest.GetUsername : Option LoginRequest → String
  | some req => req.Username
  | none => ""

/-- The generated getter `GetPassword`, which is safe on a nil request. -/
def LoginRequest.GetPassword : Option LoginRequest → String
  | some req => req.Password
  | none => ""

end pb

/-! ## `service`: the authentication server -/

namespace service

open pb

/-- Modelled from the spec: the `User` record, whose declaration is not among the
embedded sources: a username (the unique key), the password credential stored
as a salted hash, and a role tag. -/
structure User where
  Username : String
  HashedPassword : String
  Role : String
deriving DecidableEq, Repr

/-- The interface `UserStore`, as far as `Login` uses it: `Find(username)`
returns a user pointer and an error. -/
structure UserStore where
  Find : String → Option User × Option GoError

/-- The token manager, as far as `Login` uses it: `Generate(user)` returns a
token string and an error. -/
structure JWTManager where
  Generate : User → String × Option GoError

/-- The struct `AuthServer`. -/
structure AuthServer where
  userStore : UserStore
  jwtManager : JWTManager

/-- The function `NewAuthServer`. -/
def NewAuthServer (userStore : UserStore) (jwtManager : JWTManager) : AuthServer :=
  { userStore := userStore, jwtManager := jwtManager }

/-- A call made by `Login` on one of its collaborators. -/
inductive Call where
  | Find (username : String)
  | IsCorrectPassword (user : User) (password : String)
  | Generate (user : User)
deriving DecidableEq, Repr

/-- What `Login` returns (`res`, `err`) together with the collaborator calls it made. -/
structure LoginResult where
  res : Option LoginResponse
  err : Option status.Status
  calls : List Call
deriving DecidableEq, Repr

/-- The method `AuthServer.Login`.  `IsCorrectPassword` is the method of that
name of `User`, whose body is not among the embedded sources. -/
def AuthServer.Login (IsCorrectPassword : User → String → Bool) (server : AuthServer)
    (req : Option LoginRequest) : LoginResult :=
  let username := LoginRequest.GetUsername req
  match server.userStore.Find username with
  | (_, some err) =>
    { res := none
      err := some (status.Errorf codes.Code.Internal "cannot find user: %v" [err.Error])
      calls := [Call.Find username] }
  | (none, none) =>
    { res := none
      err := some (status.Errorf codes.Code.NotFound "incorrect username/password" [])
      calls := [Call.Find username] }
  | (some user, none) =>
    let password := LoginRequest.GetPassword req
    if !IsCorrectPassword user password then
      { res := none
        err := some (status.Errorf codes.Code.NotFound "incorrect username/password" [])
        calls := [Call.Find username, Call.IsCorrectPassword user password] }
    else
      match server.jwtManager.Generate user with
      | (_, some _) =>
        { res := none
          err := some (status.Errorf codes.Code.Internal "cannot generate access token" [])
          calls := [Call.Find username, Call.IsCorrectPassword user password,
                    Call.Generate user] }
      | (token, none) =>
        { res := some { AccessToken := token }
          err := none
          calls := [Call.Find username, Call.IsCorrectPassword user password,
                    Call.Generate user] }

end service

/-! ## The collaborators of the authentication server, from the specification

`UserStore`, `User.IsCorrectPassword` and the token manager are code of the
repository that is not among the embedded sources.  The definitions below
follow the specification; the hashing, signing and serialisation primitives
they rest on are library code and stay parameters. -/

namespace service

/-- Modelled from the spec: `verifyPassword(candidate)` of a User, whose body is
missing from the sources: the candidate is hashed with the algorithm and salt
used when the record was created (both are read off the stored credential by
`hash`) and the two hashes are compared. -/
def User.verifyPassword (hash : String → String → String) (user : User)
    (candidate : String) : Bool :=
  hash user.HashedPassword candidate == user.HashedPassword

/-- Modelled from the spec: the User Store, which is missing from the sources: it
holds user records keyed by username, and its lookup infrastructure is either
healthy (`failure = none`) or failing with a storage error. -/
structure UserStoreModel where
  records : List User
  failure : Option GoError

/-- Modelled from the spec: `find(username)` of the User Store: the user, or
"not found" (a nil user and no error), or a storage error when the lookup
infrastructure fails. -/
def UserStoreModel.find (store : UserStoreModel) (username : String) :
    Option User × Option GoError :=
  match store.failure with
  | some e => (none, some e)
  | none => (store.records.find? (fun u => u.Username == username), none)

/-- The invariant of the User Store that the username is a unique key. -/
def UserStoreModel.uniqueKeys (store : UserStoreModel) : Prop :=
  store.records.Pairwise (fun u v => u.Username ≠ v.Username)

/-- The spec-modelled User Store behind the `UserStore` interface. -/
def UserStoreModel.toUserStore (store : UserStoreModel) : UserStore :=
  { Find := store.find }

/-- Modelled from the spec: the Claims embedded in a token: subject, role,
issued-at and expires-at timestamps (in seconds). -/
structure Claims where
  subject : String
  role : String
  issuedAt : Nat
  expiresAt : Nat
deriving DecidableEq, Repr

/-- The signature library the Token Manager rests on: `sign secret claims` is the
signature of the serialised claims under the secret, or `none` when the
signing key is misconfigured; `encode` assembles the token string from the
claims and their signature; `decode` parses a token string back into claims
and signature, or fails. -/
structure Signer where
  sign : String → Claims → Option String
  encode : Claims → String → String
  decode : String → Option (Claims × String)

/-- Modelled from the spec: the Token Manager, which is missing from the sources:
a stateless signer and verifier parameterised by a shared secret and a token
lifetime (in seconds). -/
structure TokenManager where
  secret : String
  lifetime : Nat

/-- Why the Token Manager rejects a token. -/
inductive VerifyError where
  | invalid
  | expired
deriving DecidableEq, Repr

/-- Modelled from the spec: `issue(user)` of the Token Manager at clock reading
`now`: builds the Claims from the identity and role of the user, sets issued-at
to `now` and expires-at to `now` plus the configured lifetime, serialises and
signs them; fails only on signing-key misconfiguration. -/
def TokenManager.issue (signer : Signer) (tm : TokenManager) (now : Nat) (user : User) :
    String × Option GoError :=
  let claims : Claims :=
    { subject := user.Username, role := user.Role, issuedAt := now,
      expiresAt := now + tm.lifetime }
  match signer.sign tm.secret claims with
  | none => ("", some { Error := "signing key misconfigured" })
  | some signature => (signer.encode claims signature, none)

/-- Modelled from the spec: `verify(token)` of the Token Manager at clock reading
`now`: validates the signature against the secret, rejects the token if the
signature is invalid or if the current time is at or past expires-at, and
returns the decoded Claims otherwise. -/
def TokenManager.verify (signer : Signer) (tm : TokenManager) (now : Nat) (token : String) :
    Option Claims × Option VerifyError :=
  match signer.decode token with
  | none => (none, some VerifyError.invalid)
  | some (claims, signature) =>
    if signer.sign tm.secret claims = some signature then
      if now ≥ claims.expiresAt then (none, some VerifyError.expired)
      else (some claims, none)
    else (none, some VerifyError.invalid)

/-- The spec-modelled Token Manager, read at clock `now`, as the `jwtManager` of the server. -/
def TokenManager.toJWTManager (signer : Signer) (tm : TokenManager) (now : Nat) : JWTManager :=
  { Generate := tm.issue signer now }

end service

/-! ## `client`: the authentication client -/

namespace context

/-- A `context.Context`, as far as the client uses it: its timeout in nanoseconds, if any. -/
structure Context where
  timeout : Option Nat
deriving DecidableEq, Repr

/-- The function `context.Background()`: the context without deadline. -/
def Background : Context := { timeout := none }

/-- The function `context.WithTimeout(parent, d)`: the deadline is the earlier of
the one of the parent and `d` from now. -/
def WithTimeout (parent : Context) (d : Nat) : Context :=
  match parent.timeout with
  | none => { timeout := some d }
  | some p => { timeout := some (min p d) }

end context

namespace time

/-- The constant `time.Second`, in nanoseconds. -/
def Second : Nat := 1000000000

end time

namespace pb

/-- The generated interface `pb.AuthServiceClient`: `Login(ctx, req)` returns a
response pointer and an error of type `E`.  A call reads and advances the
state `σ` of what lies behind the stub (connection, network, server). -/
structure AuthServiceClient (E σ : Type) where
  Login : context.Context → Option LoginRequest → σ → (Option LoginResponse × Option E) × σ

/-- A spy on a service stub: it forwards every call to `svc` and appends the call
(context and request) to a log kept beside the state of `svc`. -/
def AuthServiceClient.recording {E σ : Type} (svc : AuthServiceClient E σ) :
    AuthServiceClient E (σ × List (context.Context × Option LoginRequest)) :=
  { Login := fun ctx req s =>
      ((svc.Login ctx req s.1).1, ((svc.Login ctx req s.1).2, s.2 ++ [(ctx, req)])) }

/-- The generated getter `GetAccessToken`, which is safe on a nil response. -/
def LoginResponse.GetAccessToken : Option LoginResponse → String
  | some res => res.AccessToken
  | none => ""

end pb

namespace client

open pb

/-- The struct `AuthClient`. -/
structure AuthClient (E σ : Type) where
  service : AuthServiceClient E σ
  username : String
  password : String

/-- The function `NewAuthClient`.  `NewAuthServiceClient` is the generated
constructor `pb.NewAuthServiceClient`, and `CC` the type `*grpc.ClientConn`. -/
def NewAuthClient {CC E σ : Type} (NewAuthServiceClient : CC → AuthServiceClient E σ) (cc : CC)
    (username : String) (password : String) : AuthClient E σ :=
  let service := NewAuthServiceClient cc
  { service := service, username := username, password := password }

/-- What `AuthClient.Login` returns (`token`, `err`) and the receiver after the call. -/
structure LoginResult (E σ : Type) where
  token : String
  err : Option E
  client : AuthClient E σ

/-- The method `AuthClient.Login`, started in the state `s` of what lies behind the
stub; it returns its result and the state it leaves. -/
def AuthClient.Login {E σ : Type} (client : AuthClient E σ) (s : σ) : LoginResult E σ × σ :=
  let ctx := context.WithTimeout context.Background (5 * time.Second)
  let req : LoginRequest := { Username := client.username, Password := client.password }
  match client.service.Login ctx (some req) s with
  | ((_, some err), s1) => ({ token := "", err := some err, client := client }, s1)
  | ((res, none), s1) =>
    ({ token := LoginResponse.GetAccessToken res, err := none, client := client }, s1)

end client

/-! ## `pb`: the generated laptop messages

The generated package is not among the embedded sources; each message is
rendered with the fields `generator.go` assigns.  A `float32` or `float64` is
carried as the rational number it denotes (the generator never computes with
one), a `uint32` or `uint64` as a natural number. -/

namespace pb

/-- The enum `pb.Keyboard_Layout`, as its `int32` number. -/
abbrev Keyboard_Layout := Int

/-- The enum `pb.Screen_Panel`, as its `int32` number. -/
abbrev Screen_Panel := Int

/-- The enum `pb.Memory_Unit`: the zero value and the constants the generator names. -/
inductive Memory_Unit where
  | UNKNOWN
  | GIGABYTE
  | TERABYTE
deriving DecidableEq, Repr

/-- The enum `pb.Storage_Driver`: the zero value and the constants the generator names. -/
inductive Storage_Driver where
  | UNKNOWN
  | HDD
  | SSD
deriving DecidableEq, Repr

/-- The message `pb.Keyboard`. -/
structure Keyboard where
  Layout : Keyboard_Layout
  Backlit : Bool
deriving DecidableEq, Repr

/-- The message `pb.CPU`. -/
structure CPU where
  Brand : String
  Name : String
  NumberCores : Nat
  NumberThreads : Nat
  MinGhz : ℚ
  MaxGhz : ℚ
deriving DecidableEq, Repr

/-- The message `pb.Memory`. -/
structure Memory where
  Value : Nat
  Unit : Memory_Unit
deriving DecidableEq, Repr

/-- The message `pb.GPU`. -/
structure GPU where
  Brand : String
  Name : String
  MinGhz : ℚ
  MaxGhz : ℚ
  Memory : Option Memory
deriving DecidableEq, Repr

/-- The message `pb.Storage`. -/
structure Storage where
  Driver : Storage_Driver
  Memory : Option Memory
deriving DecidableEq, Repr

/-- The message `pb.Screen_Resolution`. -/
structure Screen_Resolution where
  Width : Nat
  Height : Nat
deriving DecidableEq, Repr

/-- The message `pb.Screen`. -/
structure Screen where
  SizeInch : ℚ
  Resolution : Option Screen_Resolution
  Panel : Screen_Panel
  Multitouch : Bool
deriving DecidableEq, Repr

/-- The oneof wrapper `pb.Laptop_WeightKg`. -/
structure Laptop_WeightKg where
  WeightKg : ℚ
deriving DecidableEq, Repr

/-- The message `timestamppb.Timestamp`. -/
structure Timestamp where
  Seconds : Int
  Nanos : Int
deriving DecidableEq, Repr

/-- The message `pb.Laptop`. -/
structure Laptop where
  Id : String
  Brand : String
  Name : String
  Cpu : Option CPU
  Ram : Option Memory
  Gpus : List (Option GPU)
  Storages : List (Option Storage)
  Screen : Option Screen
  Keyboard : Option Keyboard
  Weight : Option Laptop_WeightKg
  PriceUsd : ℚ
  ReleaseYear : Nat
  UpdatedAt : Option Timestamp
deriving DecidableEq, Repr

end pb

/-! ## `sample`: the generator of sample laptops -/

/-- The Go conversion `uint32(x)` of an `int`: the value modulo `2 ^ 32`. -/
def uint32 (x : Int) : Nat := (x % 2 ^ 32).toNat

/-- The Go conversion `uint64(x)` of an `int`: the value modulo `2 ^ 64`. -/
def uint64 (x : Int) : Nat := (x % 2 ^ 64).toNat

namespace sample

open pb

/-- The random helpers of package `sample` (and `timestamppb.Now`), whose bodies are
not among the embedded sources.  Each one reads and advances the state `σ`
of the random source (for `Now`, of the clock). -/
structure Random (σ : Type) where
  randomKeyboardLayout : StateM σ Keyboard_Layout
  randomBool : StateM σ Bool
  randomCPUBrand : StateM σ String
  randomCPUName : String → StateM σ String
  randomGPUBrand : StateM σ String
  randomGPUName : String → StateM σ String
  randomLaptopBrand : StateM σ String
  randomLaptopName : String → StateM σ String
  randomID : StateM σ String
  randomInt : Int → Int → StateM σ Int
  randomFloat64 : ℚ → ℚ → StateM σ ℚ
  randomFloat32 : ℚ → ℚ → StateM σ ℚ
  randomScreenResolution : StateM σ (Option Screen_Resolution)
  randomScreenPanel : StateM σ Screen_Panel
  Now : StateM σ (Option Timestamp)

variable {σ : Type}

/-- The function `NewKeyboard`. -/
def NewKeyboard (R : Random σ) : StateM σ (Option Keyboard) := do
  let layout ← R.randomKeyboardLayout
  let backlit ← R.randomBool
  let keyboard : Keyboard := { Layout := layout, Backlit := backlit }
  return some keyboard

/-- The function `NewCPU`. -/
def NewCPU (R : Random σ) : StateM σ (Option CPU) := do
  let brand ← R.randomCPUBrand
  let name ← R.randomCPUName brand
  let numberCores ← R.randomInt 2 8
  let numberThreads ← R.randomInt numberCores 12
  let minGhz ← R.randomFloat64 2.0 3.5
  let maxGhz ← R.randomFloat64 minGhz 5.0
  let cpu : CPU :=
    { Brand := brand
      Name := name
      NumberCores := uint32 numberCores
      NumberThreads := uint32 numberThreads
      MinGhz := minGhz
      MaxGhz := maxGhz }
  return some cpu

/-- The function `NewGPU`. -/
def NewGPU (R : Random σ) : StateM σ (Option GPU) := do
  let brand ← R.randomGPUBrand
  let name ← R.randomGPUName brand
  let minGhz ← R.randomFloat64 1.0 1.5
  let maxGhz ← R.randomFloat64 minGhz 2.0
  let value ← R.randomInt 2 6
  let memory : Memory := { Value := uint64 value, Unit := Memory_Unit.GIGABYTE }
  let gpu : GPU :=
    { Brand := brand, Name := name, MinGhz := minGhz, MaxGhz := maxGhz, Memory := some memory }
  return some gpu

/-- The function `NewRAM`. -/
def NewRAM (R : Random σ) : StateM σ (Option Memory) := do
  let value ← R.randomInt 4 64
  let ram : Memory := { Value := uint64 value, Unit := Memory_Unit.GIGABYTE }
  return some ram

/-- The function `NewSSD`. -/
def NewSSD (R : Random σ) : StateM σ (Option Storage) := do
  let value ← R.randomInt 128 1024
  let ssd : Storage :=
    { Driver := Storage_Driver.SSD
      Memory := some { Value := uint64 value, Unit := Memory_Unit.GIGABYTE } }
  return some ssd

/-- The function `NewHDD`. -/
def NewHDD (R : Random σ) : StateM σ (Option Storage) := do
  let value ← R.randomInt 1 6
  let hdd : Storage :=
    { Driver := Storage_Driver.HDD
      Memory := some { Value := uint64 value, Unit := Memory_Unit.TERABYTE } }
  return some hdd

/-- The function `NewScreen`. -/
def NewScreen (R : Random σ) : StateM σ (Option Screen) := do
  let sizeInch ← R.randomFloat32 13 17
  let resolution ← R.randomScreenResolution
  let panel ← R.randomScreenPanel
  let multitouch ← R.randomBool
  let screen : Screen :=
    { SizeInch := sizeInch, Resolution := resolution, Panel := panel, Multitouch := multitouch }
  return some screen

/-- The function `NewLaptop`.  The operands of the composite literal are evaluated
in the order they are written. -/
def NewLaptop (R : Random σ) : StateM σ (Option Laptop) := do
  let brand ← R.randomLaptopBrand
  let name ← R.randomLaptopName brand
  let id ← R.randomID
  let cpu ← NewCPU R
  let ram ← NewRAM R
  let gpu ← NewGPU R
  let ssd ← NewSSD R
  let hdd ← NewHDD R
  let screen ← NewScreen R
  let keyboard ← NewKeyboard R
  let weightKg ← R.randomFloat64 1.0 3.0
  let priceUsd ← R.randomFloat64 1500 3000
  let releaseYear ← R.randomInt 2015 2019
  let updatedAt ← R.Now
  let laptop : Laptop :=
    { Id := id
      Brand := brand
      Name := name
      Cpu := cpu
      Ram := ram
      Gpus := [gpu]
      Storages := [ssd, hdd]
      Screen := screen
      Keyboard := keyboard
      Weight := some { WeightKg := weightKg }
      PriceUsd := priceUsd
      ReleaseYear := uint32 releaseYear
      UpdatedAt := updatedAt }
  return some laptop

end sample

/-! ## Concrete instances

Small stores, signers and random sources on which the definitions above are
evaluated. -/

namespace service

/-- A user with password `s3cret` under `toyHash`. -/
def alice : User := { Username := "alice", HashedPassword := "h(s3cret)", Role := "admin" }

/-- A hash function for the examples. -/
def toyHash (_stored : String) (candidate : String) : String := "h(" ++ candidate ++ ")"

/-- A healthy store holding `alice`. -/
def aliceStore : UserStoreModel := { records := [alice], failure := none }

/-- The store holding `alice` while its lookup infrastructure is failing with `e`. -/
def brokenStore (e : String) : UserStoreModel :=
  { records := [alice], failure := some { Error := e } }

/-- The claims of the token issued to `alice` at time 100 with lifetime 900. -/
def aliceClaims : Claims :=
  { subject := "alice", role := "admin", issuedAt := 100, expiresAt := 1000 }

/-- A signer for the examples; the empty secret is a misconfigured signing key. -/
def toySigner : Signer :=
  { sign := fun secret _ => if secret = "" then none else some "sig"
    encode := fun claims signature => claims.subject ++ "." ++ signature
    decode := fun token => if token = "alice.sig" then some (aliceClaims, "sig") else none }

/-- A token manager with a usable key and a lifetime of 900 seconds. -/
def toyManager : TokenManager := { secret := "k", lifetime := 900 }

/-- A token manager whose signing key is misconfigured. -/
def keylessManager : TokenManager := { secret := "", lifetime := 900 }

/-- The server over a spec-modelled store and token manager read at clock `now`. -/
def modelServer (store : UserStoreModel) (tm : TokenManager) (now : Nat) : AuthServer :=
  NewAuthServer store.toUserStore (tm.toJWTManager toySigner now)

/-- A token manager collaborator that always fails with `e`. -/
def failingJWT (e : String) : JWTManager := { Generate := fun _ => ("", some { Error := e }) }

/-- A token manager collaborator that always issues the token `tok`. -/
def constJWT (tok : String) : JWTManager := { Generate := fun _ => (tok, none) }

/-- The login request with the given username and password. -/
def mkReq (username password : String) : Option pb.LoginRequest :=
  some { Username := username, Password := password : pb.LoginRequest }

end service

namespace client

/-- The service stub over a connection (named by `tok`) that answers every call with the
token `tok`; its state counts the calls it has received. -/
def okService (tok : String) : pb.AuthServiceClient GoError Nat :=
  { Login := fun _ _ n => ((some { AccessToken := tok }, none), n + 1) }

/-- The service stub over a connection (named by `e`) on which every call fails with `e`;
its state counts the calls it has received. -/
def failService (e : String) : pb.AuthServiceClient GoError Nat :=
  { Login := fun _ _ n => ((none, some { Error := e }), n + 1) }

end client

namespace sample

/-- A random source for the examples: it returns the lower end of every range and
leaves its state (a counter of draws) advanced by one. -/
def lowest : Random Nat :=
  { randomKeyboardLayout := fun s => (1, s + 1)
    randomBool := fun s => (true, s + 1)
    randomCPUBrand := fun s => ("Intel", s + 1)
    randomCPUName := fun brand s => (brand ++ " i7", s + 1)
    randomGPUBrand := fun s => ("NVIDIA", s + 1)
    randomGPUName := fun brand s => (brand ++ " RTX", s + 1)
    randomLaptopBrand := fun s => ("Lenovo", s + 1)
    randomLaptopName := fun brand s => (brand ++ " X1", s + 1)
    randomID := fun s => ("id", s + 1)
    randomInt := fun min _ s => (min, s + 1)
    randomFloat64 := fun min _ s => (min, s + 1)
    randomFloat32 := fun min _ s => (min, s + 1)
    randomScreenResolution := fun s => (some { Width := 1920, Height := 1080 }, s + 1)
    randomScreenPanel := fun s => (1, s + 1)
    Now := fun s => (some { Seconds := 0, Nanos := 0 }, s + 1) }

end sample

/-! ## Helper lemmas -/

/-- The message of the lookup failure: the format with its `%v` replaced by the operand. -/
theorem fmt.Sprintf_cannot_find_user (e : String) :
    fmt.Sprintf "cannot find user: %v" [e] = "cannot find user: " ++ e := by
  apply String.ext
  show fmt.sprintfAux "cannot find user: %v".data [e] = "cannot find user: ".data ++ e.data
  have h : fmt.sprintfAux "cannot find user: %v".data [e]
      = "cannot find user: ".data ++ (e.data ++ []) := by rfl
  rw [h, List.append_nil]

/-- A format without verbs is printed as it stands (the denial message). -/
theorem fmt.Sprintf_incorrect :
    fmt.Sprintf "incorrect username/password" [] = "incorrect username/password" := by
  decide

/-- A format without verbs is printed as it stands (the issuance failure message). -/
theorem fmt.Sprintf_cannot_generate :
    fmt.Sprintf "cannot generate access token" [] = "cannot generate access token" := by
  decide

/-- A healthy store with unique usernames finds each record it holds under its username. -/
theorem service.UserStoreModel.find_of_mem (store : service.UserStoreModel) (u : service.User)
    (hhealthy : store.failure = none) (huniq : store.uniqueKeys) (hmem : u ∈ store.records) :
    store.find u.Username = (some u, none) := by
  have key : ∀ l : List service.User,
      l.Pairwise (fun a b => a.Username ≠ b.Username) → u ∈ l →
      l.find? (fun v => v.Username == u.Username) = some u := by
    intro l
    induction l with
    | nil => intro _ h; cases h
    | cons a l ih =>
      intro hp hm
      rw [List.pairwise_cons] at hp
      rcases List.mem_cons.mp hm with rfl | hin
      · simp [List.find?]
      · have hne : a.Username ≠ u.Username := hp.1 u hin
        have hb : (a.Username == u.Username) = false := by simpa using hne
        simp only [List.find?, hb]
        exact ih hp.2 hin
  unfold service.UserStoreModel.find
  rw [hhealthy]
  simp only
  rw [key store.records huniq hmem]

/-- The conversion `uint32` keeps an integer that fits in 32 bits. -/
theorem uint32_of_range (x : Int) (h0 : 0 ≤ x) (h1 : x < 2 ^ 32) : (uint32 x : Int) = x := by
  unfold uint32
  rw [Int.emod_eq_of_lt h0 h1, Int.toNat_of_nonneg h0]

/-- The conversion `uint64` keeps an integer that fits in 64 bits. -/
theorem uint64_of_range (x : Int) (h0 : 0 ≤ x) (h1 : x < 2 ^ 64) : (uint64 x : Int) = x := by
  unfold uint64
  rw [Int.emod_eq_of_lt h0 h1, Int.toNat_of_nonneg h0]

/-! ## The authentication server: C1 .. C6 -/

namespace service

open pb

/-- C1: when the store lookup succeeds and either no user is found or the password
check rejects the supplied password, `Login` returns no response and the fixed
denial error (`NotFound`, "incorrect username/password"); two such runs, with
whatever stores, requests and users, return the same error. -/
theorem login_denied_uniform (icp icp2 : User → String → Bool) (server server2 : AuthServer)
    (req req2 : Option LoginRequest) (user user2 : Option User)
    (hfind : server.userStore.Find (LoginRequest.GetUsername req) = (user, none))
    (hdeny : user = none ∨ ∃ u, user = some u ∧ icp u (LoginRequest.GetPassword req) = false)
    (hfind2 : server2.userStore.Find (LoginRequest.GetUsername req2) = (user2, none))
    (hdeny2 : user2 = none ∨
      ∃ u, user2 = some u ∧ icp2 u (LoginRequest.GetPassword req2) = false) :
    (server.Login icp req).res = none ∧
    (server.Login icp req).err
      = some { Code := codes.Code.NotFound, Message := "incorrect username/password" } ∧
    (server2.Login icp2 req2).res = none ∧
    (server2.Login icp2 req2).err = (server.Login icp req).err := by
  have key : ∀ (icp : User → String → Bool) (server : AuthServer) (req : Option LoginRequest)
      (user : Option User),
      server.userStore.Find (LoginRequest.GetUsername req) = (user, none) →
      (user = none ∨ ∃ u, user = some u ∧ icp u (LoginRequest.GetPassword req) = false) →
      (server.Login icp req).res = none ∧
      (server.Login icp req).err
        = some { Code := codes.Code.NotFound, Message := "incorrect username/password" } := by
    intro icp server req user hf hd
    rcases hd with rfl | ⟨u, rfl, hu⟩
    · simp [AuthServer.Login, hf, status.Errorf, fmt.Sprintf_incorrect]
    · simp [AuthServer.Login, hf, hu, status.Errorf, fmt.Sprintf_incorrect]
  obtain ⟨h1, h2⟩ := key icp server req user hfind hdeny
  obtain ⟨h3, h4⟩ := key icp2 server2 req2 user2 hfind2 hdeny2
  exact ⟨h1, h2, h3, h4.trans h2.symm⟩

/-- Witness for C1: the unknown user `bob` and a wrong password for `alice`. -/
theorem login_denied_uniform_witness :
    ((modelServer aliceStore toyManager 100).Login (User.verifyPassword toyHash)
        (mkReq "bob" "x")).err
      = some { Code := codes.Code.NotFound, Message := "incorrect username/password" } ∧
    ((modelServer aliceStore toyManager 100).Login (User.verifyPassword toyHash)
        (mkReq "alice" "wrong")).err
      = ((modelServer aliceStore toyManager 100).Login (User.verifyPassword toyHash)
        (mkReq "bob" "x")).err := by
  have h := login_denied_uniform (User.verifyPassword toyHash) (User.verifyPassword toyHash)
    (modelServer aliceStore toyManager 100) (modelServer aliceStore toyManager 100)
    (mkReq "bob" "x") (mkReq "alice" "wrong") none (some alice)
    (by decide) (Or.inl rfl) (by decide) (Or.inr ⟨alice, rfl, by decide⟩)
  exact ⟨h.2.1, h.2.2.2⟩

/-- C2: `Login` returns a response without error exactly when the store lookup
returns no error and a user, the password check of that user accepts the
password of the request, and `Generate` for that user returns no error; the
access token of the response is then the string `Generate` returned. -/
theorem login_success_iff (icp : User → String → Bool) (server : AuthServer)
    (req : Option LoginRequest) :
    ((∃ r, (server.Login icp req).res = some r ∧ (server.Login icp req).err = none) ↔
      ∃ user, server.userStore.Find (LoginRequest.GetUsername req) = (some user, none) ∧
        icp user (LoginRequest.GetPassword req) = true ∧
        (server.jwtManager.Generate user).2 = none) ∧
    (∀ user, server.userStore.Find (LoginRequest.GetUsername req) = (some user, none) →
        icp user (LoginRequest.GetPassword req) = true →
        (server.jwtManager.Generate user).2 = none →
        (server.Login icp req).res
            = some { AccessToken := (server.jwtManager.Generate user).1 } ∧
          (server.Login icp req).err = none) := by
  have succ : ∀ user, server.userStore.Find (LoginRequest.GetUsername req) = (some user, none) →
      icp user (LoginRequest.GetPassword req) = true →
      (server.jwtManager.Generate user).2 = none →
      (server.Login icp req).res
          = some { AccessToken := (server.jwtManager.Generate user).1 } ∧
        (server.Login icp req).err = none := by
    intro user hf hp hg
    rcases hgen : server.jwtManager.Generate user with ⟨token, e⟩
    rw [hgen] at hg
    simp only at hg
    subst hg
    simp [AuthServer.Login, hf, hp, hgen]
  refine ⟨⟨?_, ?_⟩, succ⟩
  · rintro ⟨r, hres, herr⟩
    rcases hf : server.userStore.Find (LoginRequest.GetUsername req) with ⟨user, e⟩
    cases e with
    | some e => simp [AuthServer.Login, hf] at herr
    | none =>
      cases user with
      | none => simp [AuthServer.Login, hf] at herr
      | some user =>
        cases hp : icp user (LoginRequest.GetPassword req) with
        | false => simp [AuthServer.Login, hf, hp] at herr
        | true =>
          rcases hgen : server.jwtManager.Generate user with ⟨token, e⟩
          cases e with
          | some e => simp [AuthServer.Login, hf, hp, hgen] at herr
          | none => exact ⟨user, rfl, hp, by simp [hgen]⟩
  · rintro ⟨user, hf, hp, hg⟩
    exact ⟨_, succ user hf hp hg⟩

/-- Witness for C2: `alice` with her password and a working token manager. -/
theorem login_success_iff_witness :
    ((modelServer aliceStore toyManager 100).Login (User.verifyPassword toyHash)
        (mkReq "alice" "s3cret")).res
      = some { AccessToken := ((modelServer aliceStore toyManager 100).jwtManager.Generate
          alice).1 } ∧
    ((modelServer aliceStore toyManager 100).Login (User.verifyPassword toyHash)
        (mkReq "alice" "s3cret")).err = none :=
  (login_success_iff (User.verifyPassword toyHash) (modelServer aliceStore toyManager 100)
    (mkReq "alice" "s3cret")).2 alice (by decide) (by decide) (by decide)

/-- C3, as amended: a token-generation error never reaches the caller (the error
returned is always `Internal`, "cannot generate access token"); a store lookup
error `e` yields the status code `Internal` whatever `e` is, with the message
"cannot find user: " followed by the text of `e`. -/
theorem login_internal_errors (icp : User → String → Bool) (server : AuthServer)
    (req : Option LoginRequest) :
    (∀ user e, server.userStore.Find (LoginRequest.GetUsername req) = (user, some e) →
      (server.Login icp req).err
        = some { Code := codes.Code.Internal, Message := "cannot find user: " ++ e.Error }) ∧
    (∀ user token e,
      server.userStore.Find (LoginRequest.GetUsername req) = (some user, none) →
      icp user (LoginRequest.GetPassword req) = true →
      server.jwtManager.Generate user = (token, some e) →
      (server.Login icp req).err
        = some { Code := codes.Code.Internal, Message := "cannot generate access token" }) := by
  constructor
  · intro user e hf
    simp [AuthServer.Login, hf, status.Errorf, fmt.Sprintf_cannot_find_user]
  · intro user token e hf hp hg
    simp [AuthServer.Login, hf, hp, hg, status.Errorf, fmt.Sprintf_cannot_generate]

/-- Witness for C3 as amended: a failing store, and a failing token manager. -/
theorem login_internal_errors_witness :
    ((modelServer (brokenStore "disk full") toyManager 100).Login (User.verifyPassword toyHash)
        (mkReq "alice" "s3cret")).err
      = some { Code := codes.Code.Internal, Message := "cannot find user: disk full" } ∧
    ((NewAuthServer aliceStore.toUserStore (failingJWT "bad key")).Login
        (User.verifyPassword toyHash) (mkReq "alice" "s3cret")).err
      = some { Code := codes.Code.Internal, Message := "cannot generate access token" } :=
  ⟨(login_internal_errors (User.verifyPassword toyHash)
      (modelServer (brokenStore "disk full") toyManager 100) (mkReq "alice" "s3cret")).1
      none { Error := "disk full" } (by decide),
   (login_internal_errors (User.verifyPassword toyHash)
      (NewAuthServer aliceStore.toUserStore (failingJWT "bad key")) (mkReq "alice" "s3cret")).2
      alice "" { Error := "bad key" } (by decide) (by decide) (by decide)⟩

/-- C3, as stated, fails: two store lookup errors with different texts give the
caller two different errors, each carrying the text of the underlying error. -/
theorem login_exposes_find_error :
    ((modelServer (brokenStore "disk full") toyManager 100).Login (User.verifyPassword toyHash)
        (mkReq "alice" "s3cret")).err
      = some { Code := codes.Code.Internal, Message := "cannot find user: disk full" } ∧
    ((modelServer (brokenStore "connection refused") toyManager 100).Login
        (User.verifyPassword toyHash) (mkReq "alice" "s3cret")).err
      = some { Code := codes.Code.Internal,
               Message := "cannot find user: connection refused" } ∧
    ((modelServer (brokenStore "disk full") toyManager 100).Login (User.verifyPassword toyHash)
        (mkReq "alice" "s3cret")).err
      ≠ ((modelServer (brokenStore "connection refused") toyManager 100).Login
        (User.verifyPassword toyHash) (mkReq "alice" "s3cret")).err := by
  decide

/-- C4: when `Find` returns an error, `Login` returns no response and an error with
status code `Internal`, whatever user `Find` returned alongside and whatever
password was supplied; the only collaborator call made is `Find`, and the
result is the same under any other password check and token manager. -/
theorem login_find_error (icp : User → String → Bool) (server : AuthServer)
    (req : Option LoginRequest) (user : Option User) (e : GoError)
    (hfind : server.userStore.Find (LoginRequest.GetUsername req) = (user, some e)) :
    (server.Login icp req).res = none ∧
    (∃ st, (server.Login icp req).err = some st ∧ st.Code = codes.Code.Internal) ∧
    (server.Login icp req).calls = [Call.Find (LoginRequest.GetUsername req)] ∧
    (∀ (icp2 : User → String → Bool) (jwt2 : JWTManager) (password2 : String),
      (NewAuthServer server.userStore jwt2).Login icp2
          (some { Username := LoginRequest.GetUsername req, Password := password2 })
        = server.Login icp req) := by
  refine ⟨?_, ?_, ?_, ?_⟩
  · simp [AuthServer.Login, hfind]
  · exact ⟨status.Errorf codes.Code.Internal "cannot find user: %v" [e.Error],
      by simp [AuthServer.Login, hfind], rfl⟩
  · simp [AuthServer.Login, hfind]
  · intro icp2 jwt2 password2
    have hu : LoginRequest.GetUsername
        (some { Username := LoginRequest.GetUsername req, Password := password2 })
        = LoginRequest.GetUsername req := rfl
    simp only [AuthServer.Login, NewAuthServer, hu, hfind]

/-- Witness for C4: the store of `alice` with a failing lookup. -/
theorem login_find_error_witness :
    ((modelServer (brokenStore "disk full") toyManager 100).Login (User.verifyPassword toyHash)
        (mkReq "alice" "s3cret")).res = none ∧
    ((modelServer (brokenStore "disk full") toyManager 100).Login (User.verifyPassword toyHash)
        (mkReq "alice" "s3cret")).calls = [Call.Find "alice"] :=
  have h := login_find_error (User.verifyPassword toyHash)
    (modelServer (brokenStore "disk full") toyManager 100) (mkReq "alice" "s3cret")
    none { Error := "disk full" } (by decide)
  ⟨h.1, h.2.2.1⟩

/-- C5: when the user is found and the password accepted but `Generate` returns an
error, `Login` returns no response and the error `Internal`, "cannot generate
access token", which is not the denial code. -/
theorem login_generate_error (icp : User → String → Bool) (server : AuthServer)
    (req : Option LoginRequest) (user : User) (e : GoError)
    (hfind : server.userStore.Find (LoginRequest.GetUsername req) = (some user, none))
    (hpass : icp user (LoginRequest.GetPassword req) = true)
    (hgen : (server.jwtManager.Generate user).2 = some e) :
    (server.Login icp req).res = none ∧
    (server.Login icp req).err
      = some { Code := codes.Code.Internal, Message := "cannot generate access token" } ∧
    (∀ st, (server.Login icp req).err = some st → st.Code ≠ codes.Code.NotFound) := by
  rcases hg : server.jwtManager.Generate user with ⟨token, e2⟩
  rw [hg] at hgen
  simp only at hgen
  subst hgen
  have herr : (server.Login icp req).err
      = some { Code := codes.Code.Internal, Message := "cannot generate access token" } := by
    simp [AuthServer.Login, hfind, hpass, hg, status.Errorf, fmt.Sprintf_cannot_generate]
  refine ⟨by simp [AuthServer.Login, hfind, hpass, hg], herr, ?_⟩
  intro st hst
  rw [herr] at hst
  cases hst
  decide

/-- Witness for C5: `alice` with her password and a token manager that fails. -/
theorem login_generate_error_witness :
    ((NewAuthServer aliceStore.toUserStore (failingJWT "bad key")).Login
        (User.verifyPassword toyHash) (mkReq "alice" "s3cret")).res = none ∧
    ((NewAuthServer aliceStore.toUserStore (failingJWT "bad key")).Login
        (User.verifyPassword toyHash) (mkReq "alice" "s3cret")).err
      = some { Code := codes.Code.Internal, Message := "cannot generate access token" } :=
  have h := login_generate_error (User.verifyPassword toyHash)
    (NewAuthServer aliceStore.toUserStore (failingJWT "bad key")) (mkReq "alice" "s3cret")
    alice { Error := "bad key" } (by decide) (by decide) (by decide)
  ⟨h.1, h.2.1⟩

/-- C6, as stated, fails: `alice` is in the store and the request carries her
username and correct password, yet `Login` fails when the signing key is
misconfigured and when the lookup infrastructure fails; and the token a
successful `Login` returns is rejected by `verify` once its expiry is reached. -/
theorem login_correct_credentials_can_fail :
    alice ∈ aliceStore.records ∧
    alice.verifyPassword toyHash "s3cret" = true ∧
    ((modelServer aliceStore keylessManager 100).Login (User.verifyPassword toyHash)
        (mkReq "alice" "s3cret")).res = none ∧
    ((modelServer aliceStore keylessManager 100).Login (User.verifyPassword toyHash)
        (mkReq "alice" "s3cret")).err
      = some { Code := codes.Code.Internal, Message := "cannot generate access token" } ∧
    ((modelServer (brokenStore "disk full") toyManager 100).Login (User.verifyPassword toyHash)
        (mkReq "alice" "s3cret")).res = none ∧
    ((modelServer aliceStore toyManager 100).Login (User.verifyPassword toyHash)
        (mkReq "alice" "s3cret")).res = some { AccessToken := "alice.sig" } ∧
    toyManager.verify toySigner 1000 "alice.sig" = (none, some VerifyError.expired) := by
  decide

/-- C6, as amended: for a user `u` held by a healthy store with unique usernames and
a request carrying the username of `u` and a password accepted for `u`, if the
signing of the claims succeeds and the token decodes to what was encoded, then
`Login` returns a token without error, and `verify` of that token at any time
before its expiry succeeds with claims whose subject is the username of `u`. -/
theorem login_token_verifies (hash : String → String → String) (signer : Signer)
    (tm : TokenManager) (store : UserStoreModel) (u : User) (password : String)
    (now later : Nat) (signature : String)
    (hhealthy : store.failure = none) (huniq : store.uniqueKeys) (hmem : u ∈ store.records)
    (hpass : u.verifyPassword hash password = true)
    (hsign : signer.sign tm.secret
      { subject := u.Username, role := u.Role, issuedAt := now, expiresAt := now + tm.lifetime }
      = some signature)
    (hcodec : signer.decode (signer.encode
      { subject := u.Username, role := u.Role, issuedAt := now, expiresAt := now + tm.lifetime }
      signature)
      = some ({ subject := u.Username, role := u.Role, issuedAt := now,
                expiresAt := now + tm.lifetime }, signature))
    (hlater : later < now + tm.lifetime) :
    ∃ t, ((NewAuthServer store.toUserStore (tm.toJWTManager signer now)).Login
            (User.verifyPassword hash)
            (some { Username := u.Username, Password := password })).res
          = some { AccessToken := t } ∧
      ((NewAuthServer store.toUserStore (tm.toJWTManager signer now)).Login
            (User.verifyPassword hash)
            (some { Username := u.Username, Password := password })).err = none ∧
      ∃ c, tm.verify signer later t = (some c, none) ∧ c.subject = u.Username := by
  have hfind : store.find u.Username = (some u, none) :=
    UserStoreModel.find_of_mem store u hhealthy huniq hmem
  have hgen : tm.issue signer now u
      = (signer.encode { subject := u.Username, role := u.Role, issuedAt := now,
                         expiresAt := now + tm.lifetime } signature, none) := by
    simp only [TokenManager.issue, hsign]
  refine ⟨signer.encode { subject := u.Username, role := u.Role, issuedAt := now,
                          expiresAt := now + tm.lifetime } signature, ?_, ?_, ?_⟩
  · simp [AuthServer.Login, NewAuthServer, UserStoreModel.toUserStore,
      TokenManager.toJWTManager, LoginRequest.GetUsername, LoginRequest.GetPassword,
      hfind, hpass, hgen]
  · simp [AuthServer.Login, NewAuthServer, UserStoreModel.toUserStore,
      TokenManager.toJWTManager, LoginRequest.GetUsername, LoginRequest.GetPassword,
      hfind, hpass, hgen]
  · refine ⟨{ subject := u.Username, role := u.Role, issuedAt := now,
              expiresAt := now + tm.lifetime }, ?_, rfl⟩
    have hnot : ¬ (later ≥ now + tm.lifetime) := by omega
    simp only [TokenManager.verify, hcodec, hsign, if_true, hnot, if_false]

/-- Witness for C6 as amended: `alice` logs in at time 100 and her token is
verified at time 999, one second before it expires. -/
theorem login_token_verifies_witness :
    ∃ t, ((NewAuthServer aliceStore.toUserStore (toyManager.toJWTManager toySigner 100)).Login
            (User.verifyPassword toyHash)
            (some { Username := alice.Username, Password := "s3cret" })).res
          = some { AccessToken := t } ∧
      ((NewAuthServer aliceStore.toUserStore (toyManager.toJWTManager toySigner 100)).Login
            (User.verifyPassword toyHash)
            (some { Username := alice.Username, Password := "s3cret" })).err = none ∧
      ∃ c, toyManager.verify toySigner 999 t = (some c, none) ∧ c.subject = alice.Username :=
  login_token_verifies toyHash toySigner toyManager aliceStore alice "s3cret" 100 999 "sig"
    rfl (by simp [UserStoreModel.uniqueKeys, aliceStore]) (by simp [aliceStore])
    (by decide) (by decide) (by decide) (by decide)

end service

/-! ## The authentication client: C7, C8 -/

namespace client

open pb

/-- C7: when the service call fails, `AuthClient.Login` returns the empty token and
exactly the error of the call; when it succeeds, it returns the access token
of the response and no error; it never returns a non-empty token together
with an error.  This holds for every service and every state it is called in. -/
theorem client_login_outcome {E σ : Type} (client : AuthClient E σ) (s : σ) :
    (∀ res e s1,
      client.service.Login (context.WithTimeout context.Background (5 * time.Second))
          (some { Username := client.username, Password := client.password }) s
        = ((res, some e), s1) →
      (client.Login s).1.token = "" ∧ (client.Login s).1.err = some e) ∧
    (∀ res s1,
      client.service.Login (context.WithTimeout context.Background (5 * time.Second))
          (some { Username := client.username, Password := client.password }) s
        = ((res, none), s1) →
      (client.Login s).1.token = LoginResponse.GetAccessToken res ∧
        (client.Login s).1.err = none) ∧
    ((client.Login s).1.err ≠ none → (client.Login s).1.token = "") := by
  refine ⟨?_, ?_, ?_⟩
  · intro res e s1 h
    simp [AuthClient.Login, h]
  · intro res s1 h
    simp [AuthClient.Login, h]
  · rcases h : client.service.Login (context.WithTimeout context.Background (5 * time.Second))
        (some { Username := client.username, Password := client.password }) s
      with ⟨⟨res, e⟩, s1⟩
    cases e with
    | some e => intro _; simp [AuthClient.Login, h]
    | none => intro hne; simp [AuthClient.Login, h] at hne

/-- Witness for C7: a failing call and a successful call. -/
theorem client_login_outcome_witness :
    (((NewAuthClient failService "deadline exceeded" "alice" "s3cret").Login 0).1.token = "" ∧
      ((NewAuthClient failService "deadline exceeded" "alice" "s3cret").Login 0).1.err
        = some { Error := "deadline exceeded" }) ∧
    (((NewAuthClient okService "alice.sig" "alice" "s3cret").Login 0).1.token = "alice.sig" ∧
      ((NewAuthClient okService "alice.sig" "alice" "s3cret").Login 0).1.err = none) :=
  ⟨(client_login_outcome (NewAuthClient failService "deadline exceeded" "alice" "s3cret") 0).1
      none { Error := "deadline exceeded" } 1 rfl,
   (client_login_outcome (NewAuthClient okService "alice.sig" "alice" "s3cret") 0).2.1
      (some { AccessToken := "alice.sig" }) 1 rfl⟩

/-- C8: one call of `AuthClient.Login` makes exactly one call of the `Login` of the
service, whatever its outcome: the state it leaves behind the stub is the
state one service call leaves, that call carrying the username and password
given to `NewAuthClient`; under a spy on any service the log grows by exactly
that one call; and the client is left as it was. -/
theorem client_login_calls_once {CC E σ : Type}
    (NewAuthServiceClient : CC → AuthServiceClient E σ)
    (cc : CC) (username password : String) (s : σ)
    (log : List (context.Context × Option LoginRequest)) :
    ((NewAuthClient NewAuthServiceClient cc username password).Login s).2
      = ((NewAuthServiceClient cc).Login
          (context.WithTimeout context.Background (5 * time.Second))
          (some { Username := username, Password := password }) s).2 ∧
    ((NewAuthClient (fun c => (NewAuthServiceClient c).recording) cc username password).Login
        (s, log)).2.2
      = log ++ [(context.WithTimeout context.Background (5 * time.Second),
                 some { Username := username, Password := password })] ∧
    (((NewAuthClient (fun c => (NewAuthServiceClient c).recording) cc username password).Login
        (s, log)).2.2.length = log.length + 1) ∧
    ((NewAuthClient NewAuthServiceClient cc username password).Login s).1.client.username
      = username ∧
    ((NewAuthClient NewAuthServiceClient cc username password).Login s).1.client.password
      = password ∧
    ((NewAuthClient NewAuthServiceClient cc username password).Login s).1.client
      = NewAuthClient NewAuthServiceClient cc username password := by
  have hstep : ∀ {τ : Type} (c : AuthClient E τ) (t : τ),
      (c.Login t).2
        = (c.service.Login (context.WithTimeout context.Background (5 * time.Second))
            (some { Username := c.username, Password := c.password }) t).2 ∧
      (c.Login t).1.client = c := by
    intro τ c t
    rcases h : c.service.Login (context.WithTimeout context.Background (5 * time.Second))
        (some { Username := c.username, Password := c.password }) t with ⟨⟨res, e⟩, t1⟩
    cases e <;> simp [AuthClient.Login, h]
  obtain ⟨h1, h2⟩ := hstep (NewAuthClient NewAuthServiceClient cc username password) s
  obtain ⟨h3, -⟩ :=
    hstep (NewAuthClient (fun c => (NewAuthServiceClient c).recording) cc username password)
      (s, log)
  have hlog : ((NewAuthClient (fun c => (NewAuthServiceClient c).recording) cc username
        password).Login (s, log)).2.2
      = log ++ [(context.WithTimeout context.Background (5 * time.Second),
                 some { Username := username, Password := password })] := by
    rw [h3]
    rfl
  refine ⟨h1, hlog, ?_, by rw [h2]; rfl, by rw [h2]; rfl, h2⟩
  rw [hlog, List.length_append]
  rfl

/-- Witness for C8: on a failing service that counts its calls the count goes from 0
to 1, and the spy logs the one request of `alice`. -/
theorem client_login_calls_once_witness :
    ((NewAuthClient failService "deadline exceeded" "alice" "s3cret").Login 0).2 = 1 ∧
    ((NewAuthClient (fun c => (failService c).recording) "deadline exceeded" "alice"
        "s3cret").Login (0, [])).2.2
      = [(context.WithTimeout context.Background (5 * time.Second),
          some { Username := "alice", Password := "s3cret" })] :=
  have h := client_login_calls_once failService "deadline exceeded" "alice" "s3cret" 0 []
  ⟨h.1, h.2.1⟩

end client

/-! ## The sample generator: C10 -/

namespace sample

open pb

variable {σ : Type}

/-- C10: if `randomInt min max` returns an integer in `[min, max]` whenever
`min ≤ max`, then the CPU built by `NewCPU` has between 2 and 8 cores and at
least as many threads as cores, at most 12 (the thread range is never empty,
the cores drawn being at most 12), and both conversions to `uint32` keep the
integer drawn; and the laptop built by `NewLaptop` has exactly one GPU and
exactly two storages, first an SSD of 128 to 1024 gigabytes, then an HDD of
1 to 6 terabytes. -/
theorem generator_ranges (R : Random σ)
    (hint : ∀ (min max : Int) (s : σ), min ≤ max →
      min ≤ (R.randomInt min max s).1 ∧ (R.randomInt min max s).1 ≤ max)
    (s : σ) :
    let afterName := (R.randomCPUName (R.randomCPUBrand s).1 (R.randomCPUBrand s).2).2
    let numberCores := R.randomInt 2 8 afterName
    let numberThreads := R.randomInt numberCores.1 12 numberCores.2
    (∃ cpu, (NewCPU R s).1 = some cpu ∧
      2 ≤ cpu.NumberCores ∧ cpu.NumberCores ≤ 8 ∧
      cpu.NumberCores ≤ cpu.NumberThreads ∧ cpu.NumberThreads ≤ 12 ∧
      numberCores.1 ≤ 12 ∧
      cpu.NumberCores = uint32 numberCores.1 ∧ (uint32 numberCores.1 : Int) = numberCores.1 ∧
      cpu.NumberThreads = uint32 numberThreads.1 ∧
      (uint32 numberThreads.1 : Int) = numberThreads.1) ∧
    (∃ laptop gpu ssdValue hddValue, (NewLaptop R s).1 = some laptop ∧
      laptop.Gpus = [some gpu] ∧ laptop.Gpus.length = 1 ∧
      laptop.Storages
        = [some { Driver := Storage_Driver.SSD
                  Memory := some { Value := ssdValue, Unit := Memory_Unit.GIGABYTE } },
           some { Driver := Storage_Driver.HDD
                  Memory := some { Value := hddValue, Unit := Memory_Unit.TERABYTE } }] ∧
      laptop.Storages.length = 2 ∧
      128 ≤ ssdValue ∧ ssdValue ≤ 1024 ∧ 1 ≤ hddValue ∧ hddValue ≤ 6) := by
  intro afterName numberCores numberThreads
  have hc : 2 ≤ numberCores.1 ∧ numberCores.1 ≤ 8 := hint 2 8 afterName (by norm_num)
  have hc12 : numberCores.1 ≤ 12 := le_trans hc.2 (by norm_num)
  have ht : numberCores.1 ≤ numberThreads.1 ∧ numberThreads.1 ≤ 12 :=
    hint numberCores.1 12 numberCores.2 hc12
  have ec : (uint32 numberCores.1 : Int) = numberCores.1 :=
    uint32_of_range _ (le_trans (by norm_num) hc.1) (lt_of_le_of_lt hc.2 (by norm_num))
  have et : (uint32 numberThreads.1 : Int) = numberThreads.1 :=
    uint32_of_range _ (le_trans (by norm_num) (le_trans hc.1 ht.1))
      (lt_of_le_of_lt ht.2 (by norm_num))
  have hssd : ∀ s2 : σ, 128 ≤ uint64 (R.randomInt 128 1024 s2).1 ∧
      uint64 (R.randomInt 128 1024 s2).1 ≤ 1024 := by
    intro s2
    have h := hint 128 1024 s2 (by norm_num)
    have e := uint64_of_range _ (le_trans (by norm_num) h.1) (lt_of_le_of_lt h.2 (by norm_num))
    omega
  have hhdd : ∀ s2 : σ, 1 ≤ uint64 (R.randomInt 1 6 s2).1 ∧
      uint64 (R.randomInt 1 6 s2).1 ≤ 6 := by
    intro s2
    have h := hint 1 6 s2 (by norm_num)
    have e := uint64_of_range _ (le_trans (by norm_num) h.1) (lt_of_le_of_lt h.2 (by norm_num))
    omega
  constructor
  · refine ⟨_, rfl, ?_⟩
    show 2 ≤ uint32 numberCores.1 ∧ uint32 numberCores.1 ≤ 8 ∧
      uint32 numberCores.1 ≤ uint32 numberThreads.1 ∧ uint32 numberThreads.1 ≤ 12 ∧
      numberCores.1 ≤ 12 ∧
      uint32 numberCores.1 = uint32 numberCores.1 ∧ (uint32 numberCores.1 : Int) = numberCores.1 ∧
      uint32 numberThreads.1 = uint32 numberThreads.1 ∧
      (uint32 numberThreads.1 : Int) = numberThreads.1
    have h1 := hc.1
    have h2 := hc.2
    have h3 := ht.1
    have h4 := ht.2
    refine ⟨by omega, by omega, by omega, by omega, hc12, rfl, ec, rfl, et⟩
  · refine ⟨_, _, _, _, rfl, rfl, rfl, rfl, rfl, ?_⟩
    exact ⟨(hssd _).1, (hssd _).2, (hhdd _).1, (hhdd _).2⟩

/-- Witness for C10: the random source that returns the lower end of every range. -/
theorem generator_ranges_witness :
    (∀ (min max : Int) (s : Nat), min ≤ max →
      min ≤ (lowest.randomInt min max s).1 ∧ (lowest.randomInt min max s).1 ≤ max) ∧
    (∃ cpu, (NewCPU lowest 0).1 = some cpu ∧ cpu.NumberCores = 2 ∧ cpu.NumberThreads = 2) ∧
    (∃ laptop, (NewLaptop lowest 0).1 = some laptop ∧ laptop.Gpus.length = 1 ∧
      laptop.Storages.length = 2) := by
  have hint : ∀ (min max : Int) (s : Nat), min ≤ max →
      min ≤ (lowest.randomInt min max s).1 ∧ (lowest.randomInt min max s).1 ≤ max :=
    fun min max _ h => ⟨le_refl min, h⟩
  have h := generator_ranges lowest hint 0
  obtain ⟨⟨cpu, hcpu, -, -, -, -, -, hcores, -, hthreads, -⟩,
    ⟨laptop, _, _, _, hlap, -, hg, -, hs, -⟩⟩ := h
  refine ⟨hint, ⟨cpu, hcpu, ?_, ?_⟩, ⟨laptop, hlap, hg, hs⟩⟩
  · rw [hcores]; rfl
  · rw [hthreads]; rfl

end sample
